import Mathlib

/-!
Shallow embedding of `src/backend/agentchat/middleware/trace_id_middleware.py`
(`TraceIDMiddleware.dispatch`), the FastAPI/Starlette middleware that assigns a
trace id to each request, logs the outcome, and converts unhandled downstream
exceptions into a uniform JSON 500 response.

Modelling decisions:
* HTTP headers are association lists of (name, value) pairs.  Starlette's
  `Headers.get` compares the lowercased lookup key against stored names
  (ASGI delivers request-header names lowercased), and
  `MutableHeaders.__setitem__` replaces the first entry whose name matches the
  lowercased key, deletes the other matching entries, and otherwise appends the
  lowercased name.  We model both with case-insensitive comparison via
  `lowerStr` (ASCII case folding, as HTTP header names use).
* `str(uuid4())` is modelled by an explicit parameter `genUuid` (the random
  draw made by the run); `time()` is modelled by two rational timestamps
  `start` and `now` (the two calls the code makes).
* The downstream handler `call_next` is a function from the request to
  `Except Exn Response`; `Exn.tb` stands for `traceback.format_exc()` of the
  raised exception.
* `JSONResponse(status_code=500, content={...})` is modelled structurally:
  `Body.json code errorMsg` is the two-field JSON object, and the constructed
  response carries a `content-type: application/json` header.
* Side effects are recorded as an ordered event trace: the call to
  `set_trace_id_context`, the invocation of `call_next`, and every log record
  (with the `trace_id` tag installed by `logger.contextualize`).
-/

/-- An HTTP request as the middleware sees it: `request.method`,
`request.url.path`, and `request.headers`. -/
structure Request where
  method : String
  path : String
  headers : List (String × String)
deriving DecidableEq, Repr

/-- Response body, modelled structurally.  `Body.json code errorMsg` is the
rendered JSON object with fields `code` and `error_msg` (as produced by
`JSONResponse`); `Body.passthrough s` is an arbitrary downstream body. -/
inductive Body where
  | json (code : Int) (errorMsg : String)
  | passthrough (payload : String)
deriving DecidableEq, Repr

/-- An HTTP response: status code, body, headers. -/
structure Response where
  status : Nat
  body : Body
  headers : List (String × String)
deriving DecidableEq, Repr

/-- An exception raised by the downstream handler; `tb` is the string
`traceback.format_exc()` renders for it. -/
structure Exn where
  tb : String
deriving DecidableEq, Repr

/-- Loguru log levels used by the middleware. -/
inductive Level where
  | info
  | error
deriving DecidableEq, Repr

/-- One log record: level, message, and the `trace_id` tag bound by
`logger.contextualize` (none if emitted outside such a scope). -/
structure LogEntry where
  level : Level
  message : String
  traceId : Option String
deriving DecidableEq, Repr

/-- Observable effects of `dispatch`, in program order. -/
inductive Event where
  | setTraceIdContext (tid : String)
  | callNext
  | log (entry : LogEntry)
deriving DecidableEq, Repr

/-- Python's `str.lower()` as used on header names (ASCII case folding). -/
def lowerStr (s : String) : String := String.mk (s.data.map Char.toLower)

/-- Starlette `Headers.get(key)`: return the value of the first header whose
name equals `key` case-insensitively, else `none`. -/
def headerGet (hs : List (String × String)) (key : String) : Option String :=
  match hs with
  | [] => none
  | p :: rest => if lowerStr p.1 = lowerStr key then some p.2 else headerGet rest key

/-- Does some header name match `lk` (already lowercased) case-insensitively? -/
def anyKey (hs : List (String × String)) (lk : String) : Bool :=
  match hs with
  | [] => false
  | p :: rest => (lowerStr p.1 == lk) || anyKey rest lk

/-- Delete every header whose name matches `lk` case-insensitively. -/
def removeKey (hs : List (String × String)) (lk : String) : List (String × String) :=
  match hs with
  | [] => []
  | p :: rest =>
      if lowerStr p.1 = lk then removeKey rest lk else p :: removeKey rest lk

/-- Replace the first header matching `lk`, delete the other matches
(Starlette `MutableHeaders.__setitem__` when a match exists). -/
def headerSetAux (hs : List (String × String)) (lk v : String) :
    List (String × String) :=
  match hs with
  | [] => []
  | p :: rest =>
      if lowerStr p.1 = lk then (lk, v) :: removeKey rest lk
      else p :: headerSetAux rest lk v

/-- Starlette `MutableHeaders.__setitem__`: replace the first case-insensitive
match and drop duplicates, or append `(key.toLower, v)` when absent. -/
def headerSet (hs : List (String × String)) (key v : String) :
    List (String × String) :=
  let lk := lowerStr key
  if anyKey hs lk then headerSetAux hs lk v else hs ++ [(lk, v)]

/-- Left-pad a fractional part to three digits. -/
def pad3 (n : Nat) : String :=
  if n < 10 then "00" ++ toString n
  else if n < 100 then "0" ++ toString n
  else toString n

/-- Python's `f"{x:.3f}"` on the elapsed milliseconds: round to the nearest
thousandth and print with exactly three decimal places. -/
def fmt3 (q : ℚ) : String :=
  let n : Int := round (q * 1000)
  let s := if n < 0 then "-" else ""
  let m := n.natAbs
  s ++ toString (m / 1000) ++ "." ++ pad3 (m % 1000)

/-- `trace_id = request.headers.get("x-b3-traceid", str(uuid4()))`: the inbound
header value if the header is present (even empty), else the fresh uuid. -/
def traceIdOf (req : Request) (genUuid : String) : String :=
  (headerGet req.headers "x-b3-traceid").getD genUuid

/-- The substitute response built in the `except` branch:
`JSONResponse(status_code=500, content={"code": -1, "error_msg": "10500: 系统错误，请重试"})`. -/
def errorResponse : Response :=
  { status := 500
  , body := Body.json (-1) "10500: 系统错误，请重试"
  , headers := [("content-type", "application/json")] }

/-- The info-level outcome line
`f'{request.method} {request.url.path} {response.status_code} time_cost={(time() - start_time) * 1000:.3f}ms'`. -/
def outcomeLine (req : Request) (status : Nat) (start now : ℚ) : String :=
  req.method ++ " " ++ req.path ++ " " ++ toString status ++
    " time_cost=" ++ fmt3 ((now - start) * 1000) ++ "ms"

/-- The tail of `dispatch` shared by both branches of the `try`/`except`:
set `response.headers["X-Trace-ID"] = trace_id`, emit the info-level outcome
log line, return the response. -/
def finishResponse (req : Request) (trace_id : String) (start now : ℚ)
    (resp0 : Response) (evs : List Event) : Response × List Event :=
  let response : Response :=
    { resp0 with headers := headerSet resp0.headers "X-Trace-ID" trace_id }
  (response,
    evs ++ [Event.log
      { level := Level.info
      , message := outcomeLine req response.status start now
      , traceId := some trace_id }])

/-- `TraceIDMiddleware.dispatch`.  Returns the response delivered to the
caller together with the ordered trace of observable effects. -/
def dispatch (req : Request) (callNext : Request → Except Exn Response)
    (genUuid : String) (start now : ℚ) : Response × List Event :=
  let trace_id := traceIdOf req genUuid
  match callNext req with
  | Except.ok r =>
      finishResponse req trace_id start now r
        [Event.setTraceIdContext trace_id, Event.callNext]
  | Except.error e =>
      finishResponse req trace_id start now errorResponse
        [Event.setTraceIdContext trace_id, Event.callNext,
         Event.log
           { level := Level.error
           , message := "exception_traceback: " ++ e.tb
           , traceId := some trace_id }]

/-- Is the event an info-level log record? -/
def isInfoLog : Event → Bool
  | Event.log entry =>
      match entry.level with
      | Level.info => true
      | Level.error => false
  | _ => false

/-- Is the event an error-level log record? -/
def isErrorLog : Event → Bool
  | Event.log entry =>
      match entry.level with
      | Level.info => false
      | Level.error => true
  | _ => false

/-- Is the event a call to `set_trace_id_context`? -/
def isSetTraceId : Event → Bool
  | Event.setTraceIdContext _ => true
  | _ => false

/-- Modelled from the spec: `set_trace_id_context` (imported from
`agentchat.utils.contexts`, whose source is not part of this fragment)
publishes the trace id into a request-scoped ambient context value retrievable
by downstream code for the remainder of the request; no other effect of the
middleware touches that value. -/
def applyEvent (ctx : Option String) (e : Event) : Option String :=
  match e with
  | Event.setTraceIdContext tid => some tid
  | _ => ctx

/-- The ambient trace-id context after running an effect trace from `ctx0`. -/
def runContext (ctx0 : Option String) (evs : List Event) : Option String :=
  evs.foldl applyEvent ctx0

/-! ### Lemmas about header lookup and mutation -/

lemma anyKey_false_iff (hs : List (String × String)) (lk : String) :
    anyKey hs lk = false ↔ ∀ p ∈ hs, lowerStr p.1 ≠ lk := by
  induction hs with
  | nil => simp [anyKey]
  | cons p rest ih =>
      simp [anyKey, Bool.or_eq_false_iff, beq_eq_false_iff_ne, ih]

lemma headerGet_append_single (hs : List (String × String)) (lk v key : String)
    (hk : lowerStr key = lk) (hlk : lowerStr lk = lk)
    (h : anyKey hs lk = false) :
    headerGet (hs ++ [(lk, v)]) key = some v := by
  induction hs with
  | nil => simp [headerGet, hlk, hk]
  | cons p rest ih =>
      rw [anyKey_false_iff] at h
      have h1 : lowerStr p.1 ≠ lk := h p (by simp)
      have h2 : anyKey rest lk = false := by
        rw [anyKey_false_iff]
        intro q hq
        exact h q (by simp [hq])
      have h3 : ¬ lowerStr p.1 = lowerStr key := by rw [hk]; exact h1
      simpa [headerGet, h3] using ih h2

lemma headerGet_headerSetAux_self (hs : List (String × String)) (lk v key : String)
    (hk : lowerStr key = lk) (hlk : lowerStr lk = lk) :
    anyKey hs lk = true → headerGet (headerSetAux hs lk v) key = some v := by
  induction hs with
  | nil => simp [anyKey]
  | cons p rest ih =>
      intro h
      by_cases hp : lowerStr p.1 = lk
      · simp [headerSetAux, hp, headerGet, hlk, hk]
      · have h2 : anyKey rest lk = true := by
          simpa [anyKey, beq_iff_eq, hp] using h
        have h3 : ¬ lowerStr p.1 = lowerStr key := by rw [hk]; exact hp
        simpa [headerSetAux, hp, headerGet, h3] using ih h2

lemma headerGet_headerSet_self (hs : List (String × String)) (key v : String)
    (hlk : lowerStr (lowerStr key) = lowerStr key) :
    headerGet (headerSet hs key v) key = some v := by
  unfold headerSet
  by_cases h : anyKey hs (lowerStr key) = true
  · simpa [h] using headerGet_headerSetAux_self hs (lowerStr key) v key rfl hlk h
  · have h0 : anyKey hs (lowerStr key) = false := by
      simpa using h
    simpa [h0] using headerGet_append_single hs (lowerStr key) v key rfl hlk h0

lemma headerGet_removeKey (hs : List (String × String)) (lk k : String)
    (hne : lowerStr k ≠ lk) :
    headerGet (removeKey hs lk) k = headerGet hs k := by
  induction hs with
  | nil => rfl
  | cons p rest ih =>
      simp only [removeKey, headerGet]
      by_cases hp : lowerStr p.1 = lk
      · rw [if_pos hp, ih]
        have hcond : ¬ lowerStr p.1 = lowerStr k := by
          rw [hp]; exact fun hc => hne hc.symm
        rw [if_neg hcond]
      · rw [if_neg hp]
        simp only [headerGet]
        rw [ih]

lemma headerGet_headerSetAux_ne (hs : List (String × String)) (lk v k : String)
    (hlk : lowerStr lk = lk) (hne : lowerStr k ≠ lk) :
    headerGet (headerSetAux hs lk v) k = headerGet hs k := by
  induction hs with
  | nil => rfl
  | cons p rest ih =>
      simp only [headerSetAux, headerGet]
      by_cases hp : lowerStr p.1 = lk
      · rw [if_pos hp]
        simp only [headerGet]
        have h1 : ¬ lowerStr lk = lowerStr k := by
          rw [hlk]; exact fun hc => hne hc.symm
        have h2 : ¬ lowerStr p.1 = lowerStr k := by
          rw [hp]; exact fun hc => hne hc.symm
        rw [if_neg h1, if_neg h2, headerGet_removeKey rest lk k hne]
      · rw [if_neg hp]
        simp only [headerGet]
        rw [ih]

lemma headerGet_append_single_ne (hs : List (String × String)) (lk v k : String)
    (hlk : lowerStr lk = lk) (hne : lowerStr k ≠ lk) :
    headerGet (hs ++ [(lk, v)]) k = headerGet hs k := by
  induction hs with
  | nil =>
      have h1 : ¬ lowerStr lk = lowerStr k := by
        rw [hlk]; exact fun hc => hne hc.symm
      simp [headerGet, h1]
  | cons p rest ih =>
      by_cases hq : lowerStr p.1 = lowerStr k <;>
        simp [headerGet, hq, ih]

lemma headerGet_headerSet_ne (hs : List (String × String)) (key v k : String)
    (hlk : lowerStr (lowerStr key) = lowerStr key)
    (hne : lowerStr k ≠ lowerStr key) :
    headerGet (headerSet hs key v) k = headerGet hs k := by
  unfold headerSet
  by_cases h : anyKey hs (lowerStr key) = true
  · simpa [h] using headerGet_headerSetAux_ne hs (lowerStr key) v k hlk hne
  · have h0 : anyKey hs (lowerStr key) = false := by simpa using h
    simpa [h0] using headerGet_append_single_ne hs (lowerStr key) v k hlk hne

lemma removeKey_no_match (hs : List (String × String)) (lk : String) :
    ∀ p ∈ removeKey hs lk, lowerStr p.1 ≠ lk := by
  induction hs with
  | nil => simp [removeKey]
  | cons p rest ih =>
      by_cases hp : lowerStr p.1 = lk
      · simpa [removeKey, hp] using ih
      · intro q hq
        rw [removeKey] at hq
        simp [hp] at hq
        rcases hq with hq | hq
        · rw [hq]; exact hp
        · exact ih q hq

lemma headerSetAux_values (hs : List (String × String)) (lk v : String) :
    ∀ p ∈ headerSetAux hs lk v, lowerStr p.1 = lk → p.2 = v := by
  induction hs with
  | nil => simp [headerSetAux]
  | cons p rest ih =>
      intro q hq
      rw [headerSetAux] at hq
      by_cases hp : lowerStr p.1 = lk
      · simp [hp] at hq
        rcases hq with hq | hq
        · rw [hq]; intro _; rfl
        · intro hql
          exact absurd hql (removeKey_no_match rest lk q hq)
      · simp [hp] at hq
        rcases hq with hq | hq
        · rw [hq]; intro hql; exact absurd hql hp
        · exact ih q hq

lemma headerSet_values (hs : List (String × String)) (key v : String) :
    ∀ p ∈ headerSet hs key v, lowerStr p.1 = lowerStr key → p.2 = v := by
  intro q hq
  simp only [headerSet] at hq
  by_cases h : anyKey hs (lowerStr key) = true
  · rw [if_pos h] at hq
    exact headerSetAux_values hs (lowerStr key) v q hq
  · rw [if_neg h] at hq
    have h0 : anyKey hs (lowerStr key) = false := by simpa using h
    rw [anyKey_false_iff] at h0
    rcases List.mem_append.mp hq with hq1 | hq1
    · exact fun hql => absurd hql (h0 q hq1)
    · have hq2 : q = (lowerStr key, v) := by simpa using hq1
      rw [hq2]
      intro _
      rfl

/-! ### Lemmas about `dispatch` -/

lemma dispatch_sets_trace_header (req : Request)
    (cn : Request → Except Exn Response) (genUuid : String) (start now : ℚ) :
    headerGet (dispatch req cn genUuid start now).1.headers "X-Trace-ID" =
      some (traceIdOf req genUuid) := by
  cases h : cn req with
  | ok r =>
      simp only [dispatch, h, finishResponse]
      exact headerGet_headerSet_self _ _ _ (by decide)
  | error e =>
      simp only [dispatch, h, finishResponse]
      exact headerGet_headerSet_self _ _ _ (by decide)

/-! ### Concrete scenario data used by the witnesses -/

/-- `GET /health` carrying an inbound `x-b3-traceid` header. -/
def reqWithTid : Request :=
  { method := "GET", path := "/health"
  , headers := [("x-b3-traceid", "abc-123")] }

/-- `POST /do` with no trace header at all. -/
def reqNoTid : Request :=
  { method := "POST", path := "/do"
  , headers := [("accept", "application/json")] }

/-- `GET /health` sending the `x-b3-traceid` header with an empty value. -/
def reqEmptyTid : Request :=
  { method := "GET", path := "/health"
  , headers := [("x-b3-traceid", "")] }

/-- A downstream success response that already carries an `X-Trace-ID`
header of its own. -/
def okResponse : Response :=
  { status := 200
  , body := Body.passthrough "ok-body"
  , headers := [("content-type", "application/json"),
                ("X-Trace-ID", "downstream-value")] }

/-- A downstream handler that succeeds with `okResponse`. -/
def cnOk : Request → Except Exn Response := fun _ => Except.ok okResponse

/-- A downstream handler that raises (traceback `boom-trace`). -/
def cnBoom : Request → Except Exn Response :=
  fun _ => Except.error { tb := "boom-trace" }

/-- A downstream handler that raises a different error. -/
def cnBoom2 : Request → Except Exn Response :=
  fun _ => Except.error { tb := "other-trace" }

/-! ### Claim theorems -/

/-- C4: on both the success path and the failure path, the response returned
by `dispatch` carries an `X-Trace-ID` header equal to the request's trace id. -/
theorem response_always_carries_trace_header (req : Request)
    (cn : Request → Except Exn Response) (genUuid : String) (start now : ℚ) :
    headerGet (dispatch req cn genUuid start now).1.headers "X-Trace-ID" =
      some (traceIdOf req genUuid) :=
  dispatch_sets_trace_header req cn genUuid start now

/-- C1: when the downstream handler raises any error, `dispatch` returns a
response with status 500, JSON body `{"code": -1, "error_msg":
"10500: 系统错误，请重试"}`, JSON content type, and the `X-Trace-ID` header. -/
theorem unhandled_error_yields_fixed_500 (req : Request)
    (cn : Request → Except Exn Response) (genUuid : String) (start now : ℚ)
    (e : Exn) (h : cn req = Except.error e) :
    (dispatch req cn genUuid start now).1.status = 500 ∧
    (dispatch req cn genUuid start now).1.body =
      Body.json (-1) "10500: 系统错误，请重试" ∧
    headerGet (dispatch req cn genUuid start now).1.headers "content-type" =
      some "application/json" ∧
    headerGet (dispatch req cn genUuid start now).1.headers "X-Trace-ID" =
      some (traceIdOf req genUuid) := by
  refine ⟨?_, ?_, ?_, ?_⟩ <;> simp only [dispatch, h, finishResponse]
  · rfl
  · rfl
  · rw [headerGet_headerSet_ne _ _ _ _ (by decide) (by decide)]
    decide
  · exact headerGet_headerSet_self _ _ _ (by decide)

/-- Witness for C1 at a concrete failing request. -/
theorem unhandled_error_yields_fixed_500_witness :
    (dispatch reqNoTid cnBoom "uuid-1" 0 1).1.status = 500 ∧
    (dispatch reqNoTid cnBoom "uuid-1" 0 1).1.body =
      Body.json (-1) "10500: 系统错误，请重试" ∧
    headerGet (dispatch reqNoTid cnBoom "uuid-1" 0 1).1.headers "content-type" =
      some "application/json" ∧
    headerGet (dispatch reqNoTid cnBoom "uuid-1" 0 1).1.headers "X-Trace-ID" =
      some (traceIdOf reqNoTid "uuid-1") :=
  unhandled_error_yields_fixed_500 reqNoTid cnBoom "uuid-1" 0 1
    { tb := "boom-trace" } rfl

/-- C3: a non-empty inbound `x-b3-traceid` header value is used verbatim as
the response's `X-Trace-ID` header. -/
theorem inbound_traceid_used_verbatim (req : Request)
    (cn : Request → Except Exn Response) (genUuid : String) (start now : ℚ)
    (v : String) (h : headerGet req.headers "x-b3-traceid" = some v)
    (hv : v ≠ "") :
    headerGet (dispatch req cn genUuid start now).1.headers "X-Trace-ID" =
      some v := by
  have h1 := dispatch_sets_trace_header req cn genUuid start now
  simpa [traceIdOf, h] using h1

/-- Witness for C3: `GET /health` with `x-b3-traceid: abc-123`. -/
theorem inbound_traceid_used_verbatim_witness :
    headerGet (dispatch reqWithTid cnOk "uuid-1" 0 1).1.headers "X-Trace-ID" =
      some "abc-123" :=
  inbound_traceid_used_verbatim reqWithTid cnOk "uuid-1" 0 1 "abc-123"
    (by decide) (by decide)

/-- C2 counterexample: a request sending `x-b3-traceid` with an EMPTY value
does not get a freshly generated identifier — the empty inbound value is used
verbatim, so the response's `X-Trace-ID` header is empty and differs from the
uuid the run generated. -/
theorem empty_traceid_header_not_regenerated :
    headerGet (dispatch reqEmptyTid cnOk
        "3b241101-e2bb-4255-8caf-4136c566a962" 0 1).1.headers "X-Trace-ID" =
      some "" ∧
    ("" : String) ≠ "3b241101-e2bb-4255-8caf-4136c566a962" := by
  constructor
  · rfl
  · decide

/-- C2 amended: only when the `x-b3-traceid` header is ABSENT is the trace id
the freshly generated uuid, and the response's `X-Trace-ID` header is then
that (non-empty) uuid; a present-but-empty header value is used verbatim. -/
theorem absent_traceid_header_generates_uuid (req : Request)
    (cn : Request → Except Exn Response) (genUuid : String) (start now : ℚ)
    (h : headerGet req.headers "x-b3-traceid" = none) (hg : genUuid ≠ "") :
    headerGet (dispatch req cn genUuid start now).1.headers "X-Trace-ID" =
      some genUuid ∧ genUuid ≠ "" := by
  constructor
  · have h1 := dispatch_sets_trace_header req cn genUuid start now
    simpa [traceIdOf, h] using h1
  · exact hg

/-- Witness for the amended C2: `POST /do` without the trace header. -/
theorem absent_traceid_header_generates_uuid_witness :
    headerGet (dispatch reqNoTid cnOk "uuid-1" 0 1).1.headers "X-Trace-ID" =
      some "uuid-1" ∧ ("uuid-1" : String) ≠ "" :=
  absent_traceid_header_generates_uuid reqNoTid cnOk "uuid-1" 0 1
    (by decide) (by decide)

/-- C5: when the downstream handler completes normally, its status, body,
and every header other than `X-Trace-ID` pass through unchanged; the only
modification is the `X-Trace-ID` header set to the trace id. -/
theorem success_response_passthrough (req : Request)
    (cn : Request → Except Exn Response) (genUuid : String) (start now : ℚ)
    (r : Response) (h : cn req = Except.ok r) :
    (dispatch req cn genUuid start now).1.status = r.status ∧
    (dispatch req cn genUuid start now).1.body = r.body ∧
    (∀ k, lowerStr k ≠ lowerStr "X-Trace-ID" →
      headerGet (dispatch req cn genUuid start now).1.headers k =
        headerGet r.headers k) ∧
    headerGet (dispatch req cn genUuid start now).1.headers "X-Trace-ID" =
      some (traceIdOf req genUuid) := by
  refine ⟨?_, ?_, ?_, ?_⟩
  · simp only [dispatch, h, finishResponse]
  · simp only [dispatch, h, finishResponse]
  · intro k hk
    simp only [dispatch, h, finishResponse]
    exact headerGet_headerSet_ne _ _ _ _ (by decide) hk
  · simp only [dispatch, h, finishResponse]
    exact headerGet_headerSet_self _ _ _ (by decide)

/-- Witness for C5: `GET /health`, downstream returns `okResponse`. -/
theorem success_response_passthrough_witness :
    (dispatch reqWithTid cnOk "uuid-1" 0 1).1.status = okResponse.status ∧
    (dispatch reqWithTid cnOk "uuid-1" 0 1).1.body = okResponse.body ∧
    (∀ k, lowerStr k ≠ lowerStr "X-Trace-ID" →
      headerGet (dispatch reqWithTid cnOk "uuid-1" 0 1).1.headers k =
        headerGet okResponse.headers k) ∧
    headerGet (dispatch reqWithTid cnOk "uuid-1" 0 1).1.headers "X-Trace-ID" =
      some (traceIdOf reqWithTid "uuid-1") :=
  success_response_passthrough reqWithTid cnOk "uuid-1" 0 1 okResponse rfl

/-- C9: a downstream-supplied `X-Trace-ID` header is overwritten with the
middleware's trace id; no header entry with that name keeps the downstream
value. -/
theorem downstream_trace_header_overwritten (req : Request)
    (cn : Request → Except Exn Response) (genUuid : String) (start now : ℚ)
    (r : Response) (w : String) (h : cn req = Except.ok r)
    (hw : headerGet r.headers "X-Trace-ID" = some w) :
    headerGet (dispatch req cn genUuid start now).1.headers "X-Trace-ID" =
      some (traceIdOf req genUuid) ∧
    (∀ p ∈ (dispatch req cn genUuid start now).1.headers,
      lowerStr p.1 = lowerStr "X-Trace-ID" → p.2 = traceIdOf req genUuid) := by
  constructor
  · exact dispatch_sets_trace_header req cn genUuid start now
  · intro p hp
    simp only [dispatch, h, finishResponse] at hp
    exact headerSet_values r.headers "X-Trace-ID" _ p hp

/-- Witness for C9: downstream response already carries
`X-Trace-ID: downstream-value`. -/
theorem downstream_trace_header_overwritten_witness :
    headerGet (dispatch reqWithTid cnOk "uuid-1" 0 1).1.headers "X-Trace-ID" =
      some (traceIdOf reqWithTid "uuid-1") ∧
    (∀ p ∈ (dispatch reqWithTid cnOk "uuid-1" 0 1).1.headers,
      lowerStr p.1 = lowerStr "X-Trace-ID" →
        p.2 = traceIdOf reqWithTid "uuid-1") :=
  downstream_trace_header_overwritten reqWithTid cnOk "uuid-1" 0 1 okResponse
    "downstream-value" rfl (by decide)

/-- C6: `dispatch` emits exactly one info-level outcome log line, of the form
`<METHOD> <PATH> <STATUS_CODE> time_cost=<elapsed_ms>ms` with
`elapsed_ms = (now - start) * 1000` formatted to 3 decimal places,
`STATUS_CODE` the status of the response actually returned, emitted inside
the `trace_id`-tagged logging scope; given a monotone clock the elapsed
value is non-negative. -/
theorem single_outcome_log_line (req : Request)
    (cn : Request → Except Exn Response) (genUuid : String) (start now : ℚ)
    (h : start ≤ now) :
    ((dispatch req cn genUuid start now).2.filter isInfoLog) =
      [Event.log
        { level := Level.info
        , message :=
            outcomeLine req (dispatch req cn genUuid start now).1.status
              start now
        , traceId := some (traceIdOf req genUuid) }] ∧
    0 ≤ (now - start) * 1000 := by
  constructor
  · cases hc : cn req with
    | ok r => simp [dispatch, hc, finishResponse, isInfoLog]
    | error e => simp [dispatch, hc, finishResponse, isInfoLog]
  · have h1 : (0 : ℚ) ≤ now - start := by linarith
    have h2 : (0 : ℚ) ≤ 1000 := by norm_num
    exact mul_nonneg h1 h2

/-- Witness for C6 at a concrete request with `start = 0`, `now = 1`. -/
theorem single_outcome_log_line_witness :
    ((dispatch reqWithTid cnOk "uuid-1" 0 1).2.filter isInfoLog) =
      [Event.log
        { level := Level.info
        , message :=
            outcomeLine reqWithTid (dispatch reqWithTid cnOk "uuid-1" 0 1).1.status
              0 1
        , traceId := some (traceIdOf reqWithTid "uuid-1") }] ∧
    (0 : ℚ) ≤ (1 - 0) * 1000 :=
  single_outcome_log_line reqWithTid cnOk "uuid-1" 0 1 (by norm_num)

/-- C7: on a downstream failure the effect trace is exactly: set context,
invoke downstream, one error-level line holding the formatted traceback, then
the single info-level outcome line; on success no error-level line exists. -/
theorem error_log_exactly_on_failure (req : Request)
    (cn : Request → Except Exn Response) (genUuid : String) (start now : ℚ) :
    (∀ e : Exn, cn req = Except.error e →
      (dispatch req cn genUuid start now).2 =
        [Event.setTraceIdContext (traceIdOf req genUuid),
         Event.callNext,
         Event.log
           { level := Level.error
           , message := "exception_traceback: " ++ e.tb
           , traceId := some (traceIdOf req genUuid) },
         Event.log
           { level := Level.info
           , message := outcomeLine req 500 start now
           , traceId := some (traceIdOf req genUuid) }]) ∧
    (∀ r : Response, cn req = Except.ok r →
      ((dispatch req cn genUuid start now).2.filter isErrorLog) = []) := by
  constructor
  · intro e he
    simp [dispatch, he, finishResponse, errorResponse]
  · intro r hr
    simp [dispatch, hr, finishResponse, isErrorLog]

/-- Witness for C7: failing downstream at `POST /do`, succeeding downstream
at `GET /health`. -/
theorem error_log_exactly_on_failure_witness :
    (dispatch reqNoTid cnBoom "uuid-1" 0 1).2 =
      [Event.setTraceIdContext (traceIdOf reqNoTid "uuid-1"),
       Event.callNext,
       Event.log
         { level := Level.error
         , message := "exception_traceback: " ++ "boom-trace"
         , traceId := some (traceIdOf reqNoTid "uuid-1") },
       Event.log
         { level := Level.info
         , message := outcomeLine reqNoTid 500 0 1
         , traceId := some (traceIdOf reqNoTid "uuid-1") }] ∧
    ((dispatch reqWithTid cnOk "uuid-1" 0 1).2.filter isErrorLog) = [] :=
  ⟨(error_log_exactly_on_failure reqNoTid cnBoom "uuid-1" 0 1).1
      { tb := "boom-trace" } rfl,
   (error_log_exactly_on_failure reqWithTid cnOk "uuid-1" 0 1).2
      okResponse rfl⟩

/-- C8: two runs on the same request whose downstream handlers fail with
different errors deliver identical responses — status 500 and the fixed
sentinel body; no error detail reaches the wire. -/
theorem error_responses_independent_of_error (req : Request)
    (cn1 cn2 : Request → Except Exn Response) (genUuid : String)
    (start now : ℚ) (e1 e2 : Exn)
    (h1 : cn1 req = Except.error e1) (h2 : cn2 req = Except.error e2) :
    (dispatch req cn1 genUuid start now).1 =
      (dispatch req cn2 genUuid start now).1 ∧
    (dispatch req cn1 genUuid start now).1.status = 500 ∧
    (dispatch req cn1 genUuid start now).1.body =
      Body.json (-1) "10500: 系统错误，请重试" := by
  refine ⟨?_, ?_, ?_⟩ <;>
    simp [dispatch, h1, h2, finishResponse, errorResponse]

/-- Witness for C8: two distinct downstream errors on the same request. -/
theorem error_responses_independent_of_error_witness :
    (dispatch reqWithTid cnBoom "uuid-1" 0 1).1 =
      (dispatch reqWithTid cnBoom2 "uuid-1" 0 1).1 ∧
    (dispatch reqWithTid cnBoom "uuid-1" 0 1).1.status = 500 ∧
    (dispatch reqWithTid cnBoom "uuid-1" 0 1).1.body =
      Body.json (-1) "10500: 系统错误，请重试" :=
  error_responses_independent_of_error reqWithTid cnBoom cnBoom2 "uuid-1" 0 1
    { tb := "boom-trace" } { tb := "other-trace" } rfl rfl

/-- C10: `dispatch` calls `set_trace_id_context` exactly once, before the
downstream handler is invoked, and never clears it: after the whole effect
trace runs, the ambient context still holds the request's trace id. -/
theorem trace_context_set_once_before_call_next (req : Request)
    (cn : Request → Except Exn Response) (genUuid : String) (start now : ℚ)
    (ctx0 : Option String) :
    ((dispatch req cn genUuid start now).2.filter isSetTraceId) =
      [Event.setTraceIdContext (traceIdOf req genUuid)] ∧
    ((dispatch req cn genUuid start now).2.take 2) =
      [Event.setTraceIdContext (traceIdOf req genUuid), Event.callNext] ∧
    runContext ctx0 (dispatch req cn genUuid start now).2 =
      some (traceIdOf req genUuid) := by
  cases hc : cn req with
  | ok r =>
      refine ⟨?_, ?_, ?_⟩ <;>
        simp [dispatch, hc, finishResponse, isSetTraceId, runContext,
          applyEvent]
  | error e =>
      refine ⟨?_, ?_, ?_⟩ <;>
        simp [dispatch, hc, finishResponse, isSetTraceId, runContext,
          applyEvent]
